import Mathlib

/-!
Verification development for the `ia_services` front-end chat widgets.

The repository ships several near-duplicate Vue `ChatWidget` components.
The claims touch three of them, embedded here as pure state-transition
functions:

* `RWidget` — the reconnect-capable widget
  (`src/unnamed/part_002` lines 1290-1654; `src/unnamed/part_006` is the
  same logic with Spanish user-facing strings).
* `CWidget` — the choice-capable widget with comment substitution
  (`src/unnamed/part_002` lines 113-692; `src/test_client/components/ChatWidget.vue`
  has the same replay-suppression and not-connected behaviour).
* `Sock` — a socket-accounting model of the two `connectWebSocket`
  variants (with and without closing the previously held socket).
* `Lifecycle` — an effect-accounting model of mount/unmount
  (`setupFocusDetection`, the reconnect `setTimeout`, `beforeUnmount`).

Network and timer activity is returned as an explicit `Effects` record:
`sends` lists the frames passed to `ws.send`, `scheduledDelays` lists the
delays of `setTimeout(connectWebSocket, delay)` calls made during the
operation.
-/

/-- Transcript entry role, matching the `role` strings used by `addMessage`. -/
inductive Role
  | user
  | agent
  | system
deriving DecidableEq, Repr

/-- One transcript entry, as pushed by `addMessage(role, content)`. -/
structure ChatMsg where
  role : Role
  content : String
deriving DecidableEq, Repr

/-- The `data` object nested in an `agent_response` frame.  Each field is
optional, matching the `data.data?.field` accesses in the handlers. -/
structure AgentData where
  is_complete : Option Bool
  is_current_state : Option Bool
  answerType : Option String
  options : Option (List String)
deriving DecidableEq, Repr

/-- Decoded inbound frame, dispatching on the `type` discriminator. -/
inductive InMsg
  | agentResponse (content : String) (d : AgentData)
  | userMessage (content : String)
  | uiConfig
  | errorMsg (content : String)
deriving DecidableEq, Repr

/-- The `connectionState` string field of the widgets. -/
inductive ConnState
  | disconnected
  | connecting
  | connected
  | reconnecting
deriving DecidableEq, Repr

/-- Externally visible activity of one handler invocation: frames passed to
`ws.send`, and delays of reconnect timers scheduled via `setTimeout`. -/
structure Effects where
  sends : List String
  scheduledDelays : List Nat
deriving DecidableEq, Repr

/-- No network send and no scheduled timer. -/
def noEffects : Effects := { sends := [], scheduledDelays := [] }

/-- Model of the JavaScript `String.prototype.trim()`: drop leading and
trailing whitespace.  Written by structural recursion over the character
list so that concrete instances reduce inside the kernel. -/
def jsTrim (s : String) : String :=
  String.mk
    (((s.data.dropWhile Char.isWhitespace).reverse.dropWhile
        Char.isWhitespace).reverse)

namespace RWidget

/-- Component state of the reconnect-capable widget
(`src/unnamed/part_002` lines 1303-1312, `src/unnamed/part_006` lines 55-64).
`ws = none` models `this.ws === null`; `ws = some b` models a held socket
whose `readyState === WebSocket.OPEN` test evaluates to `b`. -/
structure State where
  ws : Option Bool
  userInput : String
  messages : List ChatMsg
  conversationCompleted : Bool
  connectionState : ConnState
  reconnectAttempts : Nat
  maxReconnectAttempts : Nat
  disabled : Bool
deriving DecidableEq, Repr

/-- The widget `addMessage(role, content)` helper: push one transcript entry. -/
def addMessage (role : Role) (content : String) (s : State) : State :=
  { s with messages := s.messages ++ [{ role := role, content := content }] }

/-- The closure codes that must not reconnect
(`[4001, 4004, 403, 401].includes(event.code)`). -/
def permanentCloseCodes : List Nat := [4001, 4004, 403, 401]

/-- Reconnect delay: `Math.min(2000 * this.reconnectAttempts, 8000)`,
evaluated after the increment. -/
def reconnectDelay (n : Nat) : Nat := min (2000 * n) 8000

/-- `attemptReconnect()` (`part_002` lines 1395-1405, `part_006` lines 146-156):
increment `reconnectAttempts`, set `connectionState = 'reconnecting'`, and
schedule `connectWebSocket` after `reconnectDelay`. -/
def attemptReconnect (s : State) : State × Effects :=
  let s1 : State :=
    { s with reconnectAttempts := s.reconnectAttempts + 1
             connectionState := ConnState.reconnecting }
  (s1, { sends := [], scheduledDelays := [reconnectDelay s1.reconnectAttempts] })

/-- The `ws.onclose` handler (`part_002` lines 1364-1381, `part_006`
lines 117-132): set `connectionState = 'disconnected'`; on a permanent code
append the closed-by-server entry and return; otherwise reconnect while the
conversation is open and attempts remain, or append the terminal entry once
attempts are exhausted. -/
def onClose (code : Nat) (s : State) : State × Effects :=
  let s0 : State := { s with connectionState := ConnState.disconnected }
  if code ∈ permanentCloseCodes then
    (addMessage Role.system "Connection closed by server" s0, noEffects)
  else if s0.conversationCompleted = false ∧
      s0.reconnectAttempts < s0.maxReconnectAttempts then
    attemptReconnect s0
  else if s0.maxReconnectAttempts ≤ s0.reconnectAttempts then
    (addMessage Role.system "Could not restore connection" s0, noEffects)
  else
    (s0, noEffects)

/-- `handleWebSocketMessage(data)` (`part_002` lines 1407-1430): an
`agent_response` always appends an agent entry, and sets
`conversationCompleted` when `data.data?.is_complete` is truthy; this
variant has no `is_current_state` branch and no answer-mode fields. -/
def handleWebSocketMessage (m : InMsg) (s : State) : State :=
  match m with
  | InMsg.agentResponse content d =>
      let s1 := addMessage Role.agent content s
      if d.is_complete.getD false then
        { s1 with conversationCompleted := true }
      else s1
  | InMsg.userMessage content => addMessage Role.user content s
  | InMsg.uiConfig => s
  | InMsg.errorMsg content =>
      addMessage Role.system (String.append "Error: " content) s

/-- `handleSendMessage()` (`part_002` lines 1440-1461, `part_006`
lines 184-206): ended-conversation guard, empty-after-trim guard, local
user echo, then either `ws.send` or the no-connection entry plus
`attemptReconnect`; the input buffer is cleared on every path except the
empty-after-trim early return. -/
def handleSendMessage (s : State) : State × Effects :=
  if s.disabled = true ∨ s.conversationCompleted = true then
    ({ addMessage Role.system
         "The conversation has ended. No more messages can be sent." s with
       userInput := "" }, noEffects)
  else
    let message := jsTrim s.userInput
    if message = "" then
      (s, noEffects)
    else
      let s1 := addMessage Role.user message s
      if s1.connectionState = ConnState.connected ∧ s1.ws = some true then
        ({ s1 with userInput := "" },
         { sends := [message], scheduledDelays := [] })
      else
        let s2 := addMessage Role.system "No connection. Retrying..." s1
        let p := attemptReconnect s2
        ({ p.1 with userInput := "" }, p.2)

end RWidget

namespace CWidget

/-- Component state of the choice-capable widget
(`src/unnamed/part_002` lines 126-146).  This variant has answer-mode
fields and a `disabled` prop but no `conversationCompleted` field. -/
structure State where
  ws : Option Bool
  userInput : String
  messages : List ChatMsg
  connectionState : ConnState
  currentAnswerType : Option String
  currentOptions : List String
  selectedSingleChoice : Option String
  selectedMultipleChoices : List String
  commentText : String
  disabled : Bool
deriving DecidableEq, Repr

/-- The widget `addMessage(role, content)` helper: push one transcript entry. -/
def addMessage (role : Role) (content : String) (s : State) : State :=
  { s with messages := s.messages ++ [{ role := role, content := content }] }

/-- `handleWebSocketMessage(data)` (`part_002` lines 249-290, mirrored at
`test_client/components/ChatWidget.vue` lines 215-247): an `agent_response`
appends an agent entry unless `data.data?.is_current_state` is truthy, then
overwrites `currentAnswerType` and `currentOptions` (`options || []`) and
clears the pending selections; `is_complete` only emits events in this
variant, so it leaves this state unchanged. -/
def handleWebSocketMessage (m : InMsg) (s : State) : State :=
  match m with
  | InMsg.agentResponse content d =>
      let s1 := if d.is_current_state.getD false then s
                else addMessage Role.agent content s
      { s1 with currentAnswerType := d.answerType
                currentOptions := d.options.getD []
                selectedSingleChoice := none
                selectedMultipleChoices := []
                commentText := "" }
  | InMsg.userMessage content => addMessage Role.user content s
  | InMsg.uiConfig => s
  | InMsg.errorMsg content =>
      addMessage Role.system (String.append "Error: " content) s

/-- JavaScript string truthiness for an optional string value
(`null`/`undefined` and the empty string are falsy). -/
def optTruthy : Option String → Bool
  | none => false
  | some v => !(v == "")

/-- The `content` computed at the top of `sendSelection()`
(`part_002` lines 348-364): the selected single choice when truthy, else in
multiple-choice mode the selections mapped through comment substitution
(`choice === 'comment' && commentText.trim()` replaced by the trimmed
comment), filtered by `choice !== 'comment' || commentText.trim()`, and
joined with the literal separator `", "`; otherwise the empty string. -/
def selectionContent (s : State) : String :=
  if s.currentAnswerType = some "single_choice" ∧
      optTruthy s.selectedSingleChoice = true then
    s.selectedSingleChoice.getD ""
  else if s.currentAnswerType = some "multiple_choice" ∧
      0 < s.selectedMultipleChoices.length then
    let selections :=
      (s.selectedMultipleChoices.map (fun choice =>
        if choice = "comment" ∧ jsTrim s.commentText ≠ "" then
          jsTrim s.commentText
        else choice)).filter
        (fun choice => !(choice == "comment") || !(jsTrim s.commentText == ""))
    String.intercalate ", " selections
  else ""

/-- `sendSelection()` (`part_002` lines 348-385, mirrored at
`test_client/components/ChatWidget.vue` lines 312-336): when the computed
content is truthy, append a user entry, send over the socket only when
`connectionState === 'connected' && ws?.readyState === WebSocket.OPEN`
(with no else branch), then clear the whole selection state; when the
content is empty, do nothing. -/
def sendSelection (s : State) : State × Effects :=
  let content := selectionContent s
  if content = "" then
    (s, noEffects)
  else
    let s1 := addMessage Role.user content s
    let eff : Effects :=
      if s1.connectionState = ConnState.connected ∧ s1.ws = some true then
        { sends := [content], scheduledDelays := [] }
      else noEffects
    ({ s1 with selectedSingleChoice := none
               selectedMultipleChoices := []
               commentText := ""
               currentAnswerType := none
               currentOptions := [] }, eff)

end CWidget

namespace Sock

/-- Socket accounting for `connectWebSocket`: `live` lists the ids of
sockets created and not yet closed, `ws` is the id currently held in
`this.ws`, and `nextId` tags the next `new WebSocket(...)`. -/
structure Sys where
  live : List Nat
  ws : Option Nat
  nextId : Nat
deriving DecidableEq, Repr

/-- Initial state: `this.ws = null`, no socket created yet. -/
def init : Sys := { live := [], ws := none, nextId := 0 }

/-- `connectWebSocket()` as written in
`test_client/components/ChatWidget.vue` lines 169-176 (same shape in
`part_002` lines 206-212): `if (this.ws) this.ws.close()` before
`this.ws = new WebSocket(url)`. -/
def connectClosing (s : Sys) : Sys :=
  let live1 := match s.ws with
    | some i => s.live.filter (fun j => j != i)
    | none => s.live
  { live := live1 ++ [s.nextId], ws := some s.nextId, nextId := s.nextId + 1 }

/-- `connectWebSocket()` as written in `part_002` lines 1338-1349 and
`part_006` lines 89-101: `this.ws = new WebSocket(url)` with no close of a
previously held socket. -/
def connectNoClosing (s : Sys) : Sys :=
  { live := s.live ++ [s.nextId], ws := some s.nextId, nextId := s.nextId + 1 }

/-- Run `n` consecutive calls of the closing variant of `connectWebSocket`. -/
def runClosing : Nat → Sys → Sys
  | 0, s => s
  | n + 1, s => runClosing n (connectClosing s)

/-- Invariant maintained by the closing variant: every live socket is the
one currently held in `this.ws`. -/
def heldOnly (s : Sys) : Prop :=
  s.live = [] ∨ ∃ i, s.live = [i] ∧ s.ws = some i

end Sock

namespace Lifecycle

/-- Document-level effects owned by a mounted widget: reconnect timers
still pending, document listeners still registered, and whether the held
socket is open. -/
structure Host where
  pendingReconnectTimers : Nat
  mousemoveListeners : Nat
  visibilityListeners : Nat
  wsOpen : Bool
deriving DecidableEq, Repr

/-- `setupFocusDetection()` (`part_002` lines 408-443): registers one
document `mousemove` listener and one document `visibilitychange`
listener; no removal handle is kept. -/
def setupFocusDetection (h : Host) : Host :=
  { h with mousemoveListeners := h.mousemoveListeners + 1
           visibilityListeners := h.visibilityListeners + 1 }

/-- The `setTimeout(() => this.connectWebSocket(), delay)` call inside
`attemptReconnect()` (`part_002` lines 1402-1404): the timer id is not
stored, so it cannot be cancelled later. -/
def scheduleReconnectTimer (h : Host) : Host :=
  { h with pendingReconnectTimers := h.pendingReconnectTimers + 1 }

/-- `disconnectWebSocket()` (`part_002` lines 1432-1438): close the held
socket and null the reference; nothing else is touched. -/
def disconnectWebSocket (h : Host) : Host :=
  { h with wsOpen := false }

/-- `beforeUnmount()` (`part_002` lines 191-193 and 1334-1336): the only
teardown performed is `this.disconnectWebSocket()`; no `clearTimeout` and
no `removeEventListener` appear anywhere in the repository. -/
def beforeUnmount (h : Host) : Host :=
  disconnectWebSocket h

end Lifecycle

/-! Concrete sample states used to instantiate the claim theorems. -/

/-- Completed-conversation state for the reconnect widget, with a live open
socket and pending input. -/
def c1CompletedState : RWidget.State :=
  { ws := some true, userInput := "still typing", messages := [],
    conversationCompleted := true, connectionState := ConnState.connected,
    reconnectAttempts := 0, maxReconnectAttempts := 3, disabled := false }

/-- Connected state with exhausted reconnect attempts. -/
def c2State : RWidget.State :=
  { ws := some true, userInput := "", messages := [],
    conversationCompleted := false, connectionState := ConnState.connected,
    reconnectAttempts := 3, maxReconnectAttempts := 3, disabled := false }

/-- Completed conversation with reconnect attempts already at the maximum. -/
def c5State : RWidget.State :=
  { ws := none, userInput := "", messages := [],
    conversationCompleted := true, connectionState := ConnState.disconnected,
    reconnectAttempts := 3, maxReconnectAttempts := 3, disabled := false }

/-- Completed conversation with reconnect attempts still below the maximum. -/
def c5aState : RWidget.State :=
  { ws := none, userInput := "", messages := [],
    conversationCompleted := true, connectionState := ConnState.disconnected,
    reconnectAttempts := 0, maxReconnectAttempts := 3, disabled := false }

/-- Choice-widget state in multiple-choice mode with the given selections
and comment text. -/
def multiChoiceState (mc : List String) (ct : String) : CWidget.State :=
  { ws := some true, userInput := "", messages := [],
    connectionState := ConnState.connected,
    currentAnswerType := some "multiple_choice",
    currentOptions := ["A", "B", "comment"],
    selectedSingleChoice := none, selectedMultipleChoices := mc,
    commentText := ct, disabled := false }

/-- An `agent_response` payload marked as a current-state replay. -/
def replayData : AgentData :=
  { is_complete := none, is_current_state := some true,
    answerType := some "single_choice", options := some ["Yes", "No"] }

/-- Fresh connected state of the reconnect widget. -/
def c7RState : RWidget.State :=
  { ws := some true, userInput := "", messages := [],
    conversationCompleted := false, connectionState := ConnState.connected,
    reconnectAttempts := 0, maxReconnectAttempts := 3, disabled := false }

/-- Fresh connected state of the choice widget. -/
def c7CState : CWidget.State :=
  { ws := some true, userInput := "", messages := [],
    connectionState := ConnState.connected,
    currentAnswerType := none, currentOptions := [],
    selectedSingleChoice := none, selectedMultipleChoices := [],
    commentText := "", disabled := false }

/-- Connected reconnect-widget state whose input buffer holds a single
space, so the input is empty after trimming but not empty. -/
def c8State : RWidget.State :=
  { ws := some true, userInput := " ", messages := [],
    conversationCompleted := false, connectionState := ConnState.connected,
    reconnectAttempts := 0, maxReconnectAttempts := 3, disabled := false }

/-- Disconnected choice-widget state with a valid single-choice selection. -/
def c10State : CWidget.State :=
  { ws := none, userInput := "", messages := [],
    connectionState := ConnState.disconnected,
    currentAnswerType := some "single_choice", currentOptions := ["Yes", "No"],
    selectedSingleChoice := some "No", selectedMultipleChoices := [],
    commentText := "", disabled := false }

/-- The effect state of a mounted widget after `setupFocusDetection` and
one `attemptReconnect` whose timer is still pending. -/
def c9MountedHost : Lifecycle.Host :=
  Lifecycle.scheduleReconnectTimer (Lifecycle.setupFocusDetection
    { pendingReconnectTimers := 0, mousemoveListeners := 0,
      visibilityListeners := 0, wsOpen := true })

/-! Helper lemmas for the socket-accounting invariant of the closing
variant of `connectWebSocket`. -/

/-- One closing-variant connect call preserves the held-only invariant:
the previously held socket is removed from the live set before the new
socket is added. -/
lemma heldOnly_connectClosing {s : Sock.Sys} (h : Sock.heldOnly s) :
    Sock.heldOnly (Sock.connectClosing s) := by
  rcases h with h | ⟨i, hl, hw⟩
  · cases hws : s.ws <;>
      exact Or.inr ⟨s.nextId, by simp [Sock.connectClosing, hws, h], rfl⟩
  · exact Or.inr ⟨s.nextId, by simp [Sock.connectClosing, hw, hl], rfl⟩

/-- Every sequence of closing-variant connect calls preserves the
held-only invariant. -/
lemma heldOnly_runClosing (n : Nat) :
    ∀ s : Sock.Sys, Sock.heldOnly s → Sock.heldOnly (Sock.runClosing n s) := by
  induction n with
  | zero => exact fun _ h => h
  | succ n ih => exact fun s h => ih _ (heldOnly_connectClosing h)

/-- C1 (terminal lock): an inbound `agent_response` with `is_complete` sets
`conversationCompleted`; every operation of the reconnect widget preserves
a true `conversationCompleted`; and once it is true, `handleSendMessage`
performs no network send and schedules no reconnect — it only appends the
ended-conversation system entry and clears the input buffer, for every
input and every connection phase. -/
theorem terminal_lock :
    (∀ (s : RWidget.State) (content : String) (d : AgentData),
        d.is_complete = some true →
        (RWidget.handleWebSocketMessage (InMsg.agentResponse content d)
            s).conversationCompleted = true)
    ∧ (∀ (s : RWidget.State) (m : InMsg), s.conversationCompleted = true →
        (RWidget.handleWebSocketMessage m s).conversationCompleted = true)
    ∧ (∀ (s : RWidget.State) (code : Nat), s.conversationCompleted = true →
        ((RWidget.onClose code s).1).conversationCompleted = true)
    ∧ (∀ s : RWidget.State, s.conversationCompleted = true →
        ((RWidget.attemptReconnect s).1).conversationCompleted = true)
    ∧ (∀ s : RWidget.State, s.conversationCompleted = true →
        RWidget.handleSendMessage s =
          ({ RWidget.addMessage Role.system
               "The conversation has ended. No more messages can be sent." s with
             userInput := "" }, noEffects)) := by
  refine ⟨?_, ?_, ?_, ?_, ?_⟩
  · intro s content d h
    simp [RWidget.handleWebSocketMessage, h, RWidget.addMessage]
  · intro s m h
    cases m with
    | agentResponse c d =>
        simp only [RWidget.handleWebSocketMessage]
        split <;> simp [RWidget.addMessage, h]
    | userMessage c =>
        simpa [RWidget.handleWebSocketMessage, RWidget.addMessage] using h
    | uiConfig => simpa [RWidget.handleWebSocketMessage] using h
    | errorMsg c =>
        simpa [RWidget.handleWebSocketMessage, RWidget.addMessage] using h
  · intro s code h
    simp only [RWidget.onClose]
    split
    · simp [RWidget.addMessage, h]
    · split
      · simp [RWidget.attemptReconnect, h]
      · split <;> simp [RWidget.addMessage, h]
  · intro s h
    simpa [RWidget.attemptReconnect] using h
  · intro s h
    simp [RWidget.handleSendMessage, h]

/-- Witness for C1: a concrete completed state on which `handleSendMessage`
only appends the system entry and clears the input. -/
theorem terminal_lock_witness :
    c1CompletedState.conversationCompleted = true
    ∧ RWidget.handleSendMessage c1CompletedState =
      ({ RWidget.addMessage Role.system
           "The conversation has ended. No more messages can be sent."
           c1CompletedState with
         userInput := "" }, noEffects) :=
  ⟨rfl, terminal_lock.2.2.2.2 c1CompletedState rfl⟩

/-- C2 (permanent codes never retry): for every closure code in the
permanent set and every state — in particular every value of
`reconnectAttempts` — the close handler appends the closed-by-server
system entry, sends nothing, and schedules no reconnect attempt. -/
theorem permanent_codes_never_retry :
    ∀ (s : RWidget.State) (code : Nat), code ∈ RWidget.permanentCloseCodes →
      RWidget.onClose code s =
        (RWidget.addMessage Role.system "Connection closed by server"
          { s with connectionState := ConnState.disconnected }, noEffects) := by
  intro s code h
  simp [RWidget.onClose, h]

/-- Witness for C2: code 4001 on a state with exhausted attempts still
gives up without scheduling a reconnect. -/
theorem permanent_codes_never_retry_witness :
    4001 ∈ RWidget.permanentCloseCodes
    ∧ RWidget.onClose 4001 c2State =
      (RWidget.addMessage Role.system "Connection closed by server"
        { c2State with connectionState := ConnState.disconnected }, noEffects) :=
  ⟨by decide, permanent_codes_never_retry c2State 4001 (by decide)⟩

/-- C3 (backoff capped linear): `attemptReconnect` schedules exactly one
timer whose delay is `min (2000 * n) 8000` for `n` the attempt counter
after its increment; the delay is non-decreasing in `n`; and for the
default `maxAttempts = 3` the delays are 2000, 4000, 6000 ms. -/
theorem backoff_capped_linear :
    (∀ s : RWidget.State,
        (RWidget.attemptReconnect s).2.scheduledDelays =
          [min (2000 * (s.reconnectAttempts + 1)) 8000]
        ∧ (RWidget.attemptReconnect s).1.reconnectAttempts =
            s.reconnectAttempts + 1)
    ∧ (∀ n m : Nat, n ≤ m → RWidget.reconnectDelay n ≤ RWidget.reconnectDelay m)
    ∧ RWidget.reconnectDelay 1 = 2000 ∧ RWidget.reconnectDelay 2 = 4000
    ∧ RWidget.reconnectDelay 3 = 6000 := by
  refine ⟨fun s => ⟨rfl, rfl⟩, fun n m h => ?_, by decide, by decide, by decide⟩
  exact min_le_min (Nat.mul_le_mul_left 2000 h) le_rfl

/-- Witness for C3: the monotonicity conjunct applied at attempts 1 and 2. -/
theorem backoff_capped_linear_witness :
    (1 : Nat) ≤ 2 ∧ RWidget.reconnectDelay 1 ≤ RWidget.reconnectDelay 2 :=
  ⟨by decide, backoff_capped_linear.2.1 1 2 (by decide)⟩

/-- C4 counterexample: the reconnect-variant `connectWebSocket`
(`part_002` lines 1338-1349) never closes a previously held socket, so two
consecutive connect calls leave two live sockets. -/
theorem no_double_sockets_counterexample :
    ¬ ((Sock.connectNoClosing (Sock.connectNoClosing Sock.init)).live.length
        ≤ 1) := by
  decide

/-- C4 (amended, no double sockets): in the variants whose
`connectWebSocket` first closes the held socket
(`test_client/components/ChatWidget.vue` lines 169-176), after any
sequence of connect calls at most one socket is live. -/
theorem no_double_sockets_closing_variant :
    ∀ n : Nat, ((Sock.runClosing n Sock.init).live).length ≤ 1 := by
  intro n
  rcases heldOnly_runClosing n Sock.init (Or.inl rfl) with h | ⟨i, hl, _⟩
  · simp [h]
  · simp [hl]

/-- C5 counterexample: a close with the non-permanent code 1006 on a
completed conversation whose `reconnectAttempts` equals the maximum still
appends the could-not-restore system entry, so the handler is not a
no-action for every attempt count. -/
theorem completed_closure_counterexample :
    c5State.conversationCompleted = true
    ∧ 1006 ∉ RWidget.permanentCloseCodes
    ∧ (RWidget.onClose 1006 c5State).1.messages ≠ c5State.messages := by decide

/-- C5 (amended, completed closure): on a non-permanent close with
`completed = true`, the handler schedules no reconnect; it appends nothing
while `reconnectAttempts < maxReconnectAttempts`, but once attempts are at
or above the maximum it appends the could-not-restore system entry. -/
theorem completed_closure (s : RWidget.State) (code : Nat)
    (hp : code ∉ RWidget.permanentCloseCodes)
    (hc : s.conversationCompleted = true) :
    (s.reconnectAttempts < s.maxReconnectAttempts →
        RWidget.onClose code s =
          ({ s with connectionState := ConnState.disconnected }, noEffects))
    ∧ (s.maxReconnectAttempts ≤ s.reconnectAttempts →
        RWidget.onClose code s =
          (RWidget.addMessage Role.system "Could not restore connection"
            { s with connectionState := ConnState.disconnected }, noEffects)) := by
  constructor <;> intro h
  · simp [RWidget.onClose, hp, hc, h, Nat.not_le.mpr h]
  · simp [RWidget.onClose, hp, hc, h, Nat.not_lt.mpr h]

/-- Witness for C5 (amended): code 1006 on a completed conversation with
attempts below the maximum changes only the connection phase. -/
theorem completed_closure_witness :
    (1006 ∉ RWidget.permanentCloseCodes
      ∧ c5aState.conversationCompleted = true
      ∧ c5aState.reconnectAttempts < c5aState.maxReconnectAttempts)
    ∧ RWidget.onClose 1006 c5aState =
        ({ c5aState with connectionState := ConnState.disconnected },
          noEffects) :=
  ⟨⟨by decide, rfl, by decide⟩,
    (completed_closure c5aState 1006 (by decide) rfl).1 (by decide)⟩

/-- C6 (multi-choice comment substitution): with selections A and the
comment sentinel, the encoded content is the selections joined by the
literal separator in click order, with the trimmed comment text
substituted for the sentinel when non-blank and the sentinel dropped when
the comment is empty or whitespace. -/
theorem multi_choice_comment_substitution :
    CWidget.selectionContent (multiChoiceState ["A", "comment"] "hello")
        = "A, hello"
    ∧ CWidget.selectionContent (multiChoiceState ["A", "comment"] "") = "A"
    ∧ CWidget.selectionContent (multiChoiceState ["A", "comment"] "   ") = "A"
    ∧ CWidget.selectionContent (multiChoiceState ["comment", "A"] "hello")
        = "hello, A" := by
  decide

/-- C7 counterexample: the reconnect-variant message handler
(`part_002` lines 1407-1430) ignores `is_current_state` and appends the
agent entry even for a current-state replay. -/
theorem replay_suppression_counterexample :
    replayData.is_current_state = some true
    ∧ (RWidget.handleWebSocketMessage (InMsg.agentResponse "Hi" replayData)
          c7RState).messages ≠ c7RState.messages := by decide

/-- C7 (amended, replay suppression): in the choice-capable widgets
(`part_002` lines 249-290 and `test_client/components/ChatWidget.vue`
lines 215-247), an `agent_response` with `is_current_state = true` never
appends a transcript entry but still overwrites `currentAnswerType` and
`currentOptions` from the message. -/
theorem replay_suppression (s : CWidget.State) (content : String)
    (d : AgentData) (h : d.is_current_state = some true) :
    (CWidget.handleWebSocketMessage (InMsg.agentResponse content d) s).messages
        = s.messages
    ∧ (CWidget.handleWebSocketMessage
          (InMsg.agentResponse content d) s).currentAnswerType = d.answerType
    ∧ (CWidget.handleWebSocketMessage
          (InMsg.agentResponse content d) s).currentOptions
        = d.options.getD [] := by
  simp [CWidget.handleWebSocketMessage, h]

/-- Witness for C7 (amended): a concrete replay message appends nothing to
the choice widget transcript. -/
theorem replay_suppression_witness :
    replayData.is_current_state = some true
    ∧ (CWidget.handleWebSocketMessage (InMsg.agentResponse "Hi" replayData)
          c7CState).messages = c7CState.messages :=
  ⟨rfl, (replay_suppression c7CState "Hi" replayData rfl).1⟩

/-- C8 counterexample: a call with whitespace-only input (and the
conversation still open) returns through the empty-after-trim guard with
the input buffer unchanged, not cleared. -/
theorem input_clearing_counterexample :
    (RWidget.handleSendMessage c8State).1.userInput = " "
    ∧ ¬ ((RWidget.handleSendMessage c8State).1.userInput = "") := by decide

/-- C8 (amended, input clearing): `handleSendMessage` clears the input
buffer on the completed-rejection path and on every path where the input
is non-empty after trimming; the empty-after-trim rejection instead
returns with the whole state unchanged (no transcript entry, no send, and
the buffer keeps its old value). -/
theorem input_clearing (s : RWidget.State) :
    ((s.disabled = true ∨ s.conversationCompleted = true) →
        (RWidget.handleSendMessage s).1.userInput = "")
    ∧ (s.disabled = false → s.conversationCompleted = false →
        jsTrim s.userInput = "" →
        RWidget.handleSendMessage s = (s, noEffects))
    ∧ (s.disabled = false → s.conversationCompleted = false →
        jsTrim s.userInput ≠ "" →
        (RWidget.handleSendMessage s).1.userInput = "") := by
  refine ⟨fun h => ?_, fun h1 h2 h3 => ?_, fun h1 h2 h3 => ?_⟩
  · simp [RWidget.handleSendMessage, h]
  · simp [RWidget.handleSendMessage, h1, h2, h3]
  · simp only [RWidget.handleSendMessage, h1, h2]
    simp only [Bool.false_eq_true, or_self, if_false, h3, if_neg h3]
    split <;> simp

/-- Witness for C8 (amended): on the whitespace-only input state the call
is a complete no-op. -/
theorem input_clearing_witness :
    (c8State.disabled = false ∧ c8State.conversationCompleted = false
      ∧ jsTrim c8State.userInput = "")
    ∧ RWidget.handleSendMessage c8State = (c8State, noEffects) :=
  ⟨⟨rfl, rfl, by decide⟩, (input_clearing c8State).2.1 rfl rfl (by decide)⟩

/-- C9 (teardown): evaluated on a mounted widget with one pending
reconnect timer and the two document listeners registered, the unmount
hook closes the socket but leaves the reconnect timer pending and both
document listeners registered — the repository contains no `clearTimeout`
and no `removeEventListener` call. -/
theorem teardown_leaves_effects_pending :
    (Lifecycle.beforeUnmount c9MountedHost).wsOpen = false
    ∧ (Lifecycle.beforeUnmount c9MountedHost).pendingReconnectTimers = 1
    ∧ (Lifecycle.beforeUnmount c9MountedHost).mousemoveListeners = 1
    ∧ (Lifecycle.beforeUnmount c9MountedHost).visibilityListeners = 1 := by
  decide

/-- C10 (choice-mode submission while not connected): with a valid
selection and the connection not in the connected-and-open state,
`sendSelection` still appends the computed content as a user entry and
still clears the whole selection state, yet sends no frame, appends no
system entry, and schedules no reconnect. -/
theorem choice_send_not_connected (s : CWidget.State)
    (h1 : CWidget.selectionContent s ≠ "")
    (h2 : ¬ (s.connectionState = ConnState.connected ∧ s.ws = some true)) :
    CWidget.sendSelection s =
      ({ CWidget.addMessage Role.user (CWidget.selectionContent s) s with
          selectedSingleChoice := none, selectedMultipleChoices := [],
          commentText := "", currentAnswerType := none, currentOptions := [] },
        noEffects) := by
  have h2a : ¬ ((CWidget.addMessage Role.user (CWidget.selectionContent s)
        s).connectionState = ConnState.connected
      ∧ (CWidget.addMessage Role.user (CWidget.selectionContent s)
          s).ws = some true) := by
    simpa [CWidget.addMessage] using h2
  simp only [CWidget.sendSelection, if_neg h1, if_neg h2a]

/-- Witness for C10: a disconnected state with single choice No selected
locally echoes the answer, clears the selection state, and sends nothing. -/
theorem choice_send_not_connected_witness :
    (CWidget.selectionContent c10State ≠ ""
      ∧ ¬ (c10State.connectionState = ConnState.connected
            ∧ c10State.ws = some true))
    ∧ CWidget.sendSelection c10State =
        ({ CWidget.addMessage Role.user (CWidget.selectionContent c10State)
             c10State with
            selectedSingleChoice := none, selectedMultipleChoices := [],
            commentText := "", currentAnswerType := none,
            currentOptions := [] }, noEffects) :=
  ⟨⟨by decide, by decide⟩,
    choice_send_not_connected c10State (by decide) (by decide)⟩
